import Mathlib

/-
Verification development for the slatron repository, whose single source
file is src/utility/export_snac_onnx.py: a script that loads the
pretrained SNAC audio codec, wraps its decode entry point in a
three-tensor adapter, and exports it to an ONNX graph.

The script is embedded shallowly: external effects (importing the snac
library, SNAC.from_pretrained, torch.onnx.export, the random generator
backing torch.randint) are inputs of an Env record, and a run is a pure
function from the Env to a list of observable events paired with an
Except-valued outcome (Except.error models an uncaught Python exception
or sys.exit, which terminates the process with a nonzero status).
-/

namespace Slatron

/-- Element type tags for the torch dtypes the script mentions. -/
inductive DType
  | int32
  | float32
deriving DecidableEq

/-- A torch tensor: a shape, flat integer data, and a dtype tag. -/
structure Tensor where
  shape : List Nat
  data : List Int
  dtype : DType
deriving DecidableEq

/-- Number of elements of a tensor shape. -/
def numel (shape : List Nat) : Nat := shape.foldl (fun a b => a * b) 1

/-- Embedding of torch.randint(low, high, shape, dtype): entries are drawn
from the generator stream g, reduced into the half-open range low..high. -/
def randint (low high : Int) (shape : List Nat) (dtype : DType) (g : Nat → Nat) : Tensor :=
  { shape := shape
    data := (List.range (numel shape)).map (fun i => low + ((g i : Int)) % (high - low))
    dtype := dtype }

/-- The external SNAC model: an abstract decode function from a list of
code tensors to an audio tensor, together with the torch module training
flag (from_pretrained yields a module with training set to true). -/
structure SnacModel where
  decode : List Tensor → Tensor
  training : Bool

/-- Embedding of torch module eval(): clears the training flag and nothing
else; in particular it does not touch the autograd gradient mode. -/
def SnacModel.eval (m : SnacModel) : SnacModel := { m with training := false }

/-- The SnacWrapper adapter of the script, holding the wrapped model. -/
structure SnacWrapper where
  model : SnacModel

/-- SnacWrapper.forward of the script, lines 17 to 20: collect the three
positional code tensors into a list and call decode on it. -/
def SnacWrapper.forward (w : SnacWrapper) (c0 c1 c2 : Tensor) : Tensor :=
  let codes := [c0, c1, c2]
  w.model.decode codes

/-- Argument record of the one torch.onnx.export call (lines 50 to 63),
together with the module training flag of the traced wrapper and the
ambient autograd gradient mode at the moment of the call. -/
structure ExportArgs where
  model_args : Tensor × Tensor × Tensor
  output_path : String
  input_names : List String
  output_names : List String
  dynamic_axes : List (String × List (Nat × String))
  opset_version : Nat
  call_model_training : Bool
  call_grad_enabled : Bool
deriving DecidableEq

/-- Observable events of a run of the script. -/
inductive Event
  | out (msg : String)
  | err (msg : String)
  | exitCode (code : Nat)
  | loadModel (repoId : String)
  | onnxExport (args : ExportArgs)
  | fileWrite (path : String)
  | fileDelete (path : String)
  | seed (n : Nat)
deriving DecidableEq

/-- Outcomes of the external calls the script makes, and whether the snac
library can be imported at all. The rng field gives, per randint call
index, the generator stream backing that call. -/
structure Env where
  snacImportable : Bool
  loadResult : Except String SnacModel
  exportResult : SnacWrapper → ExportArgs → Except String Unit
  rng : Nat → Nat → Nat

/-- The fixed pretrained model identifier of line 25. -/
def modelId : String := "hubertsiuzdak/snac_24khz"

/-- The stderr diagnostic of line 9. -/
def importErrMsg : String :=
  "Error: \x27snac\x27 library not found. Please install it or run this in the orpheus-tts-local environment."

/-- The stdout message of line 24. -/
def loadingMsg : String := "Loading SNAC model..."

/-- The stdout message of line 49, an f-string over the output path. -/
def exportingMsg (path : String) : String := "Exporting to " ++ path ++ "..."

/-- The stdout message of line 64. -/
def completeMsg : String := "Export complete."

/-- Dummy tensor of line 45: torch.randint(0, 1024, (1, 10), dtype=torch.int32). -/
def dummy_c0 (g : Nat → Nat) : Tensor := randint 0 1024 [1, 10] DType.int32 g

/-- Dummy tensor of line 46: torch.randint(0, 1024, (1, 20), dtype=torch.int32). -/
def dummy_c1 (g : Nat → Nat) : Tensor := randint 0 1024 [1, 20] DType.int32 g

/-- Dummy tensor of line 47: torch.randint(0, 1024, (1, 40), dtype=torch.int32). -/
def dummy_c2 (g : Nat → Nat) : Tensor := randint 0 1024 [1, 40] DType.int32 g

/-- The keyword arguments of the torch.onnx.export call, lines 50 to 63,
assembled for the model after eval(), with the ambient gradient mode. -/
def exportArgsOf (model : SnacModel) (path : String) (gradEnabled : Bool)
    (rng : Nat → Nat → Nat) : ExportArgs :=
  { model_args := (dummy_c0 (rng 0), dummy_c1 (rng 1), dummy_c2 (rng 2))
    output_path := path
    input_names := ["codes_0", "codes_1", "codes_2"]
    output_names := ["audio"]
    dynamic_axes :=
      [("codes_0", [(0, "batch"), (1, "time")]),
       ("codes_1", [(0, "batch"), (1, "time")]),
       ("codes_2", [(0, "batch"), (1, "time")]),
       ("audio", [(0, "batch"), (2, "time")])]
    opset_version := 18
    call_model_training := model.training
    call_grad_enabled := gradEnabled }

/-- Embedding of export_model (lines 22 to 64): print the loading message,
fetch the pretrained model, put it in eval mode, wrap it, build the dummy
inputs, print the exporting message, call torch.onnx.export (which on
success writes the output file), and print the completion message. An
error from the load or from the export call is returned unchanged: the
script installs no handler. gradEnabled is the ambient autograd mode,
which the script never changes. -/
def export_model (env : Env) (path : String) (gradEnabled : Bool) :
    List Event × Except String Unit :=
  let evs0 := [Event.out loadingMsg, Event.loadModel modelId]
  match env.loadResult with
  | Except.error e => (evs0, Except.error e)
  | Except.ok m =>
      let model := SnacModel.eval m
      let wrapper : SnacWrapper := ⟨model⟩
      let args := exportArgsOf model path gradEnabled env.rng
      let evs1 := evs0 ++ [Event.out (exportingMsg path)]
      match env.exportResult wrapper args with
      | Except.error e => (evs1 ++ [Event.onnxExport args], Except.error e)
      | Except.ok _ =>
          (evs1 ++ [Event.onnxExport args, Event.fileWrite path, Event.out completeMsg],
           Except.ok ())

/-- Embedding of the whole script run: the import guard of lines 6 to 10
(one stderr line, then sys.exit(1)) and otherwise the main call
export_model() of line 67 with the default output path. The autograd
gradient mode starts at the torch process default, enabled. -/
def run_script (env : Env) : List Event × Except String Unit :=
  if env.snacImportable then
    export_model env "snac.onnx" true
  else
    ([Event.err importErrMsg, Event.exitCode 1], Except.error "SystemExit: 1")

/-- The time dimension of a code tensor of shape [batch, time]. -/
def timeDim (t : Tensor) : Nat := t.shape.getD 1 0

/-- The fixed 1:2:4 relative length contract of the three code levels. -/
def ratio_1_2_4 (c0 c1 c2 : Tensor) : Bool :=
  decide (timeDim c1 = 2 * timeDim c0) && decide (timeDim c2 = 2 * timeDim c1)

/-- Event class of the single torch.onnx.export call. -/
def isExportEvent : Event → Bool
  | Event.onnxExport _ => true
  | _ => false

/-- Event class of the single SNAC.from_pretrained call. -/
def isLoadEvent : Event → Bool
  | Event.loadModel _ => true
  | _ => false

/-- A fixed audio tensor standing in for a concrete decode result. -/
def audioTensor : Tensor := { shape := [1, 1, 320], data := [0], dtype := DType.float32 }

/-- A concrete SNAC model whose decode is constant, freshly loaded and so
still in training mode. -/
def okModel : SnacModel := { decode := fun _ => audioTensor, training := true }

/-- A concrete environment where every external call succeeds and the
generator stream is constantly zero. -/
def okEnv : Env :=
  { snacImportable := true
    loadResult := Except.ok okModel
    exportResult := fun _ _ => Except.ok ()
    rng := fun _ _ => 0 }

/-- The export call arguments arising in a run over okEnv. -/
def okArgs : ExportArgs := exportArgsOf (SnacModel.eval okModel) "snac.onnx" true okEnv.rng

/-- okEnv with the snac library missing. -/
def noSnacEnv : Env := { okEnv with snacImportable := false }

/-- okEnv with the pretrained model load failing. -/
def loadFailEnv : Env := { okEnv with loadResult := Except.error "RepositoryNotFoundError" }

/-- okEnv with the export call failing. -/
def exportFailEnv : Env :=
  { okEnv with exportResult := fun _ _ => Except.error "UnsupportedOperatorError" }

/-- Helper: a run of export_model ends in exactly one of three ways, with
the trace and outcome fully determined: the load fails, the export call
fails, or everything succeeds. -/
theorem export_model_cases (env : Env) (path : String) (g : Bool) :
    (∃ e, env.loadResult = Except.error e ∧
        export_model env path g =
          ([Event.out loadingMsg, Event.loadModel modelId], Except.error e)) ∨
    (∃ m e, env.loadResult = Except.ok m ∧
        env.exportResult ⟨SnacModel.eval m⟩ (exportArgsOf (SnacModel.eval m) path g env.rng) =
          Except.error e ∧
        export_model env path g =
          ([Event.out loadingMsg, Event.loadModel modelId, Event.out (exportingMsg path),
            Event.onnxExport (exportArgsOf (SnacModel.eval m) path g env.rng)],
           Except.error e)) ∨
    (∃ m, env.loadResult = Except.ok m ∧
        env.exportResult ⟨SnacModel.eval m⟩ (exportArgsOf (SnacModel.eval m) path g env.rng) =
          Except.ok () ∧
        export_model env path g =
          ([Event.out loadingMsg, Event.loadModel modelId, Event.out (exportingMsg path),
            Event.onnxExport (exportArgsOf (SnacModel.eval m) path g env.rng),
            Event.fileWrite path, Event.out completeMsg],
           Except.ok ())) := by
  cases h : env.loadResult with
  | error e => exact Or.inl ⟨e, rfl, by simp [export_model, h]⟩
  | ok m =>
      cases hx : env.exportResult ⟨SnacModel.eval m⟩ (exportArgsOf (SnacModel.eval m) path g env.rng) with
      | error e => exact Or.inr (Or.inl ⟨m, e, rfl, hx, by simp [export_model, h, hx]⟩)
      | ok u =>
          cases u
          exact Or.inr (Or.inr ⟨m, rfl, hx, by simp [export_model, h, hx]⟩)

/-- Helper: every entry of a randint 0 1024 tensor lies between 0 and 1023. -/
theorem randint_data_bounds (g : Nat → Nat) (shape : List Nat) (d : DType) (x : Int)
    (hx : x ∈ (randint 0 1024 shape d g).data) : 0 ≤ x ∧ x ≤ 1023 := by
  simp only [randint, List.mem_map, List.mem_range] at hx
  obtain ⟨i, _, rfl⟩ := hx
  have h0 : (0 : Int) ≤ (g i : Int) % (1024 - 0) := Int.emod_nonneg _ (by norm_num)
  have h1 : (g i : Int) % (1024 - 0) < 1024 := by
    have := Int.emod_lt_of_pos (g i : Int) (show (0 : Int) < 1024 - 0 by norm_num)
    omega
  omega

/-- C1: SnacWrapper.forward takes its three positional code tensors, forms
the ordered list [c0, c1, c2], and returns the decode result unchanged. -/
theorem c1_forward_is_decode (w : SnacWrapper) (c0 c1 c2 : Tensor) :
    w.forward c0 c1 c2 = w.model.decode [c0, c1, c2] := rfl

/-- C3: the three dummy code tensors have time lengths 10, 20 and 40, in
ratio 1:2:4, and every entry lies in the vocabulary 0 to 1023 inclusive,
for every state of the random generator. -/
theorem c3_dummy_lengths_and_vocab (g0 g1 g2 : Nat → Nat) :
    timeDim (dummy_c0 g0) = 10 ∧ timeDim (dummy_c1 g1) = 20 ∧ timeDim (dummy_c2 g2) = 40 ∧
    ratio_1_2_4 (dummy_c0 g0) (dummy_c1 g1) (dummy_c2 g2) = true ∧
    (∀ x ∈ (dummy_c0 g0).data, 0 ≤ x ∧ x ≤ 1023) ∧
    (∀ x ∈ (dummy_c1 g1).data, 0 ≤ x ∧ x ≤ 1023) ∧
    (∀ x ∈ (dummy_c2 g2).data, 0 ≤ x ∧ x ≤ 1023) := by
  refine ⟨rfl, rfl, rfl, rfl, ?_, ?_, ?_⟩
  · exact fun x hx => randint_data_bounds g0 [1, 10] DType.int32 x hx
  · exact fun x hx => randint_data_bounds g1 [1, 20] DType.int32 x hx
  · exact fun x hx => randint_data_bounds g2 [1, 40] DType.int32 x hx

/-- Witness for C3: a concrete generator state, with the entry value 5
checked in the vocabulary bounds. -/
theorem c3_dummy_lengths_and_vocab_witness :
    (5 : Int) ∈ (dummy_c0 (fun _ => 5)).data ∧ (0 ≤ (5 : Int) ∧ (5 : Int) ≤ 1023) :=
  ⟨by decide,
   (c3_dummy_lengths_and_vocab (fun _ => 5) (fun _ => 5) (fun _ => 5)).2.2.2.2.1 5 (by decide)⟩

/-- C9: each dummy tensor is created with dtype int32 and batch dimension
exactly 1: shapes [1, 10], [1, 20] and [1, 40]. -/
theorem c9_dummy_dtype_and_shape (g0 g1 g2 : Nat → Nat) :
    (dummy_c0 g0).dtype = DType.int32 ∧ (dummy_c0 g0).shape = [1, 10] ∧
    (dummy_c1 g1).dtype = DType.int32 ∧ (dummy_c1 g1).shape = [1, 20] ∧
    (dummy_c2 g2).dtype = DType.int32 ∧ (dummy_c2 g2).shape = [1, 40] :=
  ⟨rfl, rfl, rfl, rfl, rfl, rfl⟩

/-- C2: every torch.onnx.export call in a run of export_model names its
inputs codes_0, codes_1, codes_2 and its output audio, declares axes 0
(batch) and 1 (time) dynamic for every input and axes 0 and 2 for the
output, and requests opset version 18; and each run makes at most one
export call. -/
theorem c2_export_call_args (env : Env) (path : String) (g : Bool) :
    ((export_model env path g).1.filter isExportEvent).length ≤ 1 ∧
    ∀ a, Event.onnxExport a ∈ (export_model env path g).1 →
      a.input_names = ["codes_0", "codes_1", "codes_2"] ∧
      a.output_names = ["audio"] ∧
      a.dynamic_axes =
        [("codes_0", [(0, "batch"), (1, "time")]),
         ("codes_1", [(0, "batch"), (1, "time")]),
         ("codes_2", [(0, "batch"), (1, "time")]),
         ("audio", [(0, "batch"), (2, "time")])] ∧
      a.opset_version = 18 := by
  rcases export_model_cases env path g with ⟨e, _, hq⟩ | ⟨m, e, _, _, hq⟩ | ⟨m, _, _, hq⟩ <;>
    rw [hq] <;>
    refine ⟨by simp [isExportEvent], fun a ha => ?_⟩ <;>
    simp at ha <;>
    subst ha <;>
    exact ⟨rfl, rfl, rfl, rfl⟩

/-- Witness for C2: the export call of a concrete successful run, with its
argument record checked against the declared names and opset version. -/
theorem c2_export_call_args_witness :
    Event.onnxExport okArgs ∈ (export_model okEnv "snac.onnx" true).1 ∧
    (okArgs.input_names = ["codes_0", "codes_1", "codes_2"] ∧
     okArgs.output_names = ["audio"] ∧
     okArgs.dynamic_axes =
       [("codes_0", [(0, "batch"), (1, "time")]),
        ("codes_1", [(0, "batch"), (1, "time")]),
        ("codes_2", [(0, "batch"), (1, "time")]),
        ("audio", [(0, "batch"), (2, "time")])] ∧
     okArgs.opset_version = 18) :=
  ⟨by decide, (c2_export_call_args okEnv "snac.onnx" true).2 okArgs (by decide)⟩

/-- C4: when the snac library cannot be imported, the run writes exactly
the one diagnostic line to standard error, exits with status 1, and does
no export work: no model load, no export call, no file written. -/
theorem c4_missing_dependency (env : Env) (h : env.snacImportable = false) :
    (run_script env).1 = [Event.err importErrMsg, Event.exitCode 1] ∧
    (run_script env).2 = Except.error "SystemExit: 1" ∧
    (∀ p, Event.fileWrite p ∉ (run_script env).1) ∧
    (∀ r, Event.loadModel r ∉ (run_script env).1) ∧
    (∀ a, Event.onnxExport a ∉ (run_script env).1) := by
  simp [run_script, h]

/-- Witness for C4: the concrete environment with the library missing. -/
theorem c4_missing_dependency_witness :
    noSnacEnv.snacImportable = false ∧
    (run_script noSnacEnv).1 = [Event.err importErrMsg, Event.exitCode 1] :=
  ⟨rfl, (c4_missing_dependency noSnacEnv rfl).1⟩

/-- C5: an error from the model load ends the run right there with that
error unchanged, and an error from the export call becomes the outcome of
export_model unchanged; no run deletes a file, and each run attempts the
load exactly once and the export at most once. -/
theorem c5_error_propagation (env : Env) (path : String) (g : Bool) (e : String) :
    (env.loadResult = Except.error e →
        export_model env path g =
          ([Event.out loadingMsg, Event.loadModel modelId], Except.error e)) ∧
    (∀ m, env.loadResult = Except.ok m →
        env.exportResult ⟨SnacModel.eval m⟩ (exportArgsOf (SnacModel.eval m) path g env.rng) =
          Except.error e →
        (export_model env path g).2 = Except.error e) ∧
    (∀ p, Event.fileDelete p ∉ (export_model env path g).1) ∧
    ((export_model env path g).1.filter isLoadEvent).length = 1 ∧
    ((export_model env path g).1.filter isExportEvent).length ≤ 1 := by
  refine ⟨fun h => by simp [export_model, h], fun m hm hx => by simp [export_model, hm, hx], ?_, ?_, ?_⟩ <;>
    rcases export_model_cases env path g with ⟨e', _, hq⟩ | ⟨m, e', _, _, hq⟩ | ⟨m, _, _, hq⟩ <;>
    rw [hq] <;>
    simp [isExportEvent, isLoadEvent]

/-- Witness for C5: the concrete environment whose model load fails. -/
theorem c5_error_propagation_witness :
    loadFailEnv.loadResult = Except.error "RepositoryNotFoundError" ∧
    export_model loadFailEnv "snac.onnx" true =
      ([Event.out loadingMsg, Event.loadModel modelId],
       Except.error "RepositoryNotFoundError") :=
  ⟨rfl, (c5_error_propagation loadFailEnv "snac.onnx" true "RepositoryNotFoundError").1 rfl⟩

/-- C6: no ratio validation anywhere: the adapter forwards every triple to
decode, triples violating the 1:2:4 ratio included, and no run of the
script ever writes an error line other than the import diagnostic. -/
theorem c6_no_ratio_validation :
    (∀ (w : SnacWrapper) (c0 c1 c2 : Tensor), ratio_1_2_4 c0 c1 c2 = false →
        w.forward c0 c1 c2 = w.model.decode [c0, c1, c2]) ∧
    (∀ (env : Env) (msg : String), Event.err msg ∈ (run_script env).1 → msg = importErrMsg) := by
  refine ⟨fun w c0 c1 c2 _ => rfl, fun env msg h => ?_⟩
  by_cases hi : env.snacImportable
  · simp only [run_script, hi, if_true] at h
    rcases export_model_cases env "snac.onnx" true with ⟨e, _, hq⟩ | ⟨m, e, _, _, hq⟩ | ⟨m, _, _, hq⟩ <;>
      rw [hq] at h <;> simp at h
  · simp [run_script, hi] at h
    exact h

/-- Witness for C6: a triple of equal-length tensors, which violates the
1:2:4 ratio, still just forwarded to decode. -/
theorem c6_no_ratio_validation_witness :
    ratio_1_2_4 audioTensor audioTensor audioTensor = false ∧
    (SnacWrapper.mk okModel).forward audioTensor audioTensor audioTensor =
      okModel.decode [audioTensor, audioTensor, audioTensor] :=
  ⟨by decide, c6_no_ratio_validation.1 ⟨okModel⟩ audioTensor audioTensor audioTensor (by decide)⟩

/-- C7 as stated is false: in a concrete successful run the export call is
made while the ambient autograd gradient mode is still enabled, because
the script only calls eval(), which does not touch gradient tracking. -/
theorem c7_counterexample :
    Event.onnxExport okArgs ∈ (run_script okEnv).1 ∧ okArgs.call_grad_enabled = true :=
  ⟨by decide, by decide⟩

/-- C7 amended: before tracing the decoder is placed in deterministic
evaluation mode (its training flag is cleared), but the export call runs
under the ambient gradient mode, which the script leaves at the enabled
torch default; the script itself installs no no-grad guard. -/
theorem c7_eval_mode_grad_default (env : Env) (a : ExportArgs)
    (h : Event.onnxExport a ∈ (run_script env).1) :
    a.call_model_training = false ∧ a.call_grad_enabled = true := by
  by_cases hi : env.snacImportable
  · simp only [run_script, hi, if_true] at h
    rcases export_model_cases env "snac.onnx" true with ⟨e, _, hq⟩ | ⟨m, e, _, _, hq⟩ | ⟨m, _, _, hq⟩ <;>
      rw [hq] at h <;> simp at h <;> subst h <;> exact ⟨rfl, rfl⟩
  · simp [run_script, hi] at h

/-- Witness for C7 amended: the export call of the concrete successful
run, its training flag off and gradient mode still on. -/
theorem c7_eval_mode_grad_default_witness :
    Event.onnxExport okArgs ∈ (run_script okEnv).1 ∧
    (okArgs.call_model_training = false ∧ okArgs.call_grad_enabled = true) :=
  ⟨by decide, c7_eval_mode_grad_default okEnv okArgs (by decide)⟩

/-- C8: on a successful run the trace is exactly loading message, model
load, exporting message, export call, file write, completion message: the
loading message precedes the load, the exporting message precedes the
export call, and the run ends with the completion message on stdout. -/
theorem c8_message_order (env : Env) (path : String) (g : Bool) (m : SnacModel)
    (hl : env.loadResult = Except.ok m)
    (hx : ∀ w a, env.exportResult w a = Except.ok ()) :
    export_model env path g =
      ([Event.out loadingMsg, Event.loadModel modelId,
        Event.out (exportingMsg path),
        Event.onnxExport (exportArgsOf (SnacModel.eval m) path g env.rng),
        Event.fileWrite path, Event.out completeMsg],
       Except.ok ()) := by
  simp [export_model, hl, hx]

/-- Witness for C8: the concrete successful run, whose trace ends with the
completion message. -/
theorem c8_message_order_witness :
    okEnv.loadResult = Except.ok okModel ∧
    export_model okEnv "snac.onnx" true =
      ([Event.out loadingMsg, Event.loadModel modelId,
        Event.out (exportingMsg "snac.onnx"),
        Event.onnxExport okArgs,
        Event.fileWrite "snac.onnx", Event.out completeMsg],
       Except.ok ()) :=
  ⟨rfl, c8_message_order okEnv "snac.onnx" true okModel rfl (fun _ _ => rfl)⟩

/-- C10: the traced dummy values depend on the unseeded generator state:
two states give different values for all three dummies, every pair of
states gives identical shapes, and no run of the script ever seeds the
generator. -/
theorem c10_unseeded_values_vary :
    (∃ g g' : Nat → Nat,
        (dummy_c0 g).data ≠ (dummy_c0 g').data ∧
        (dummy_c1 g).data ≠ (dummy_c1 g').data ∧
        (dummy_c2 g).data ≠ (dummy_c2 g').data) ∧
    (∀ g g' : Nat → Nat,
        (dummy_c0 g).shape = (dummy_c0 g').shape ∧
        (dummy_c1 g).shape = (dummy_c1 g').shape ∧
        (dummy_c2 g).shape = (dummy_c2 g').shape) ∧
    (∀ (env : Env) (n : Nat), Event.seed n ∉ (run_script env).1) := by
  refine ⟨⟨fun _ => 0, fun _ => 1, by decide, by decide, by decide⟩,
          fun g g' => ⟨rfl, rfl, rfl⟩, fun env n h => ?_⟩
  by_cases hi : env.snacImportable
  · simp only [run_script, hi, if_true] at h
    rcases export_model_cases env "snac.onnx" true with ⟨e, _, hq⟩ | ⟨m, e, _, _, hq⟩ | ⟨m, _, _, hq⟩ <;>
      rw [hq] at h <;> simp at h
  · simp [run_script, hi] at h

/-- Witness for C10: no seed event in the concrete successful run. -/
theorem c10_unseeded_values_vary_witness :
    Event.seed 0 ∉ (run_script okEnv).1 :=
  c10_unseeded_values_vary.2.2 okEnv 0

end Slatron
